import Mathlib

/-!
Verification of `livekit-plugins-avatario` (`livekit/plugins/avatario/api.py`)
against its natural-language specification.

The module is a small HTTP client: `AvatarioAPI.__init__` resolves an API key,
`start_session` validates its arguments, builds a JSON payload and delegates to
`_post`, which issues a POST request with bounded retries.

Shallow embedding conventions:
* Python `NotGivenOr[str]` arguments become `Option String` (`none` = `NOT_GIVEN`);
  Python truthiness of such a value is `none`/`""` ↦ falsy.
* `os.getenv` is modelled by an explicit `Env` record of the two variables the
  code reads (`none` = unset; `some ""` = set to the empty string).
* JSON payloads are association lists `List (String × JValue)`; dict values that
  the code never inspects (the `properties` mapping) are one nested dict level
  of scalar leaves.
* The network is an oracle `transport : Nat → AttemptOutcome` giving the result
  of each attempt (an HTTP response, or an exception raised by the transport).
  In `aiohttp`, `response.ok` means `status < 400`.
* Effects are recorded as a trace of `Event`s (requests issued, log calls,
  sleeps); a function that Python would exit by `raise`/`return` yields
  `Except ApiError Unit`.
-/

namespace Avatario

/-- Scalar JSON leaf values (strings and integers). -/
inductive JLeaf where
  | lstr (s : String)
  | lnum (n : Int)
  deriving DecidableEq, Repr

/-- JSON values appearing at the top level of the request payload: strings,
integers, or a (flat) dictionary such as the `properties` mapping. -/
inductive JValue where
  | jstr (s : String)
  | jnum (n : Int)
  | jdict (fields : List (String × JLeaf))
  deriving DecidableEq, Repr

/-- A JSON object / Python dict, as an ordered association list. -/
abbrev Payload := List (String × JValue)

/-- Python-dict key lookup: the value at the first matching key. -/
def dictGet (d : Payload) (k : String) : Option JValue :=
  (d.find? (fun p => p.1 = k)).map (fun p => p.2)

/-- Python-dict assignment `d[k] = v`: overwrite the entry at `k` in place if
present, else append it. -/
def dictSet (d : Payload) (k : String) (v : JValue) : Payload :=
  match d with
  | [] => [(k, v)]
  | (k', v') :: t => if k' = k then (k, v) :: t else (k', v') :: dictSet t k v

/-- Python `d.update(extra)`: assign every entry of `extra` into `d`, in order. -/
def dictUpdate (d : Payload) (extra : Payload) : Payload :=
  extra.foldl (fun acc p => dictSet acc p.1 p.2) d

/-- Exceptions that the embedded code can raise or observe.
`avatarioException` is the `AvatarioException` class defined by the module;
`apiStatusError`/`apiConnectionError` are the `livekit.agents` classes
(`APIStatusError` is not a subclass of `APIConnectionError`);
`clientError` stands for transport-level exceptions (aiohttp / asyncio), and
`jsonDecodeError` for a 2xx/3xx body that fails to parse as JSON. -/
inductive ApiError where
  | avatarioException (msg : String)
  | apiStatusError (msg : String) (statusCode : Int) (body : String)
  | apiConnectionError (msg : String)
  | clientError (msg : String)
  | jsonDecodeError (body : String)
  deriving DecidableEq, Repr

/-- `isinstance(e, APIConnectionError)` over the modelled exception classes. -/
def isAPIConnectionError : ApiError → Bool
  | .apiConnectionError _ => true
  | _ => false

/-- Observable effects of a run, in order of occurrence. -/
inductive Event where
  | request (url : String) (headers : List (String × String)) (body : Payload)
      (timeout : Rat)
  | logWarning (msg : String)
  | logException (msg : String)
  | sleep (seconds : Rat)
  deriving DecidableEq, Repr

def isRequestEvent : Event → Bool
  | .request _ _ _ _ => true
  | _ => false

def isSleepEvent : Event → Bool
  | .sleep _ => true
  | _ => false

def isLogEvent : Event → Bool
  | .logWarning _ => true
  | .logException _ => true
  | _ => false

/-- What the `session.post(...)` interaction of one attempt yields: an HTTP response
(with status, body text, and whether the body parses as JSON), or an exception
raised by the transport before a response is obtained. -/
inductive AttemptOutcome where
  | response (status : Int) (bodyText : String) (jsonOk : Bool)
  | raised (e : ApiError)
  deriving DecidableEq, Repr

/-- The environment variables the module reads. -/
structure Env where
  avatarioApiKey : Option String
  avatarioReplicaId : Option String

/-- `livekit.agents.APIConnectOptions` (the fields this module uses). -/
structure APIConnectOptions where
  maxRetry : Int
  retryInterval : Rat
  timeout : Rat

/-- Python `a or b` where `a` is a `NotGivenOr[str]` (`NOT_GIVEN` and `""` are
falsy) and `b` is an `os.getenv` result. -/
def strOr : Option String → Option String → Option String
  | some s, b => if s = "" then b else some s
  | none, b => b

/-- Truthiness of an optional string (`NOT_GIVEN`, `None` and `""` are falsy). -/
def optTruthy : Option String → Bool
  | some s => s ≠ ""
  | none => false

/-- `DEFAULT_API_URL` from the source (the empty string). -/
def DEFAULT_API_URL : String := ""

/-- `AvatarioAPI.__init__`: resolve `api_key or os.getenv("AVATARIO_API_KEY")`;
raise `AvatarioException` iff the resolved value is `None`. Returns the stored
`_api_key` on success. -/
def avatarioInit (apiKeyArg : Option String) (env : Env) : Except ApiError String :=
  match strOr apiKeyArg env.avatarioApiKey with
  | none => .error (.avatarioException "AVATARIO_API_KEY must be set")
  | some k => .ok k

/-- The request headers built on every attempt in `_post`. -/
def stdHeaders (apiKey : String) : List (String × String) :=
  [("Content-Type", "application/json"), ("x-api-key", apiKey)]

/-- The `request` event emitted by one `session.post(...)` call in `_post`. -/
def requestEvent (apiKey : String) (opts : APIConnectOptions) (payload : Payload) :
    Event :=
  .request (DEFAULT_API_URL ++ "/start_session") (stdHeaders apiKey) payload
    opts.timeout

/-- The log message used by both logging branches of `_post`. -/
def logMsg : String := "failed to call avatario api"

/-- The exception escaping the `try` body of one attempt, if any: a transport
exception propagates; a response with `not response.ok` (aiohttp: `status ≥ 400`)
raises `APIStatusError("Server returned an error", status, body)`; otherwise
`response.json()` raises iff the body is not JSON. `None` means the `try` body
completed without raising (note the source has no `return` there). -/
def attemptException : AttemptOutcome → Option ApiError
  | .raised e => some e
  | .response status bodyText jsonOk =>
      if ¬ status < 400 then
        some (.apiStatusError "Server returned an error" status bodyText)
      else if jsonOk then none
      else some (.jsonDecodeError bodyText)

/-- The log event of the `except` block: `logger.warning` if the exception is an
`APIConnectionError` instance, else `logger.exception`. -/
def logEventOf (e : ApiError) : Event :=
  if isAPIConnectionError e then .logWarning logMsg else .logException logMsg

/-- Events produced by iteration `i` of the retry loop in `_post`: the POST
request, then — only if the `try` body raised — the log call and, when more
attempts remain (`i < max_retry - 1`), the sleep of `retry_interval`. -/
def iterationEvents (apiKey : String) (opts : APIConnectOptions) (payload : Payload)
    (transport : Nat → AttemptOutcome) (i : Nat) : List Event :=
  requestEvent apiKey opts payload ::
    match attemptException (transport i) with
    | none => []
    | some e =>
        logEventOf e ::
          (if (i : Int) < opts.maxRetry - 1 then [Event.sleep opts.retryInterval]
           else [])

/-- Trace of `for i in range(n): <body emitting f i>`, in execution order. -/
def loopTrace (n : Nat) (f : Nat → List Event) : List Event :=
  match n with
  | 0 => []
  | m + 1 => loopTrace m f ++ f m

/-- `AvatarioAPI._post(payload)`: run the retry loop (`range(max_retry)`, empty
for a non-positive count), collecting the trace; the loop body has no `return`,
so control always reaches the final unconditional
`raise APIConnectionError("Failed to call Avatario API after all retries")`. -/
def avatarioPost (apiKey : String) (opts : APIConnectOptions) (payload : Payload)
    (transport : Nat → AttemptOutcome) : List Event × Except ApiError Unit :=
  (loopTrace opts.maxRetry.toNat (iterationEvents apiKey opts payload transport),
   .error (.apiConnectionError "Failed to call Avatario API after all retries"))

/-- The `AvatarioException` message for a missing avatar id. -/
def avatarIdMsg : String := "avatar_id must be set"

/-- The `AvatarioException` message for a missing agent identity (the two
adjacent source string literals, concatenated). -/
def identityMsg : String :=
  "the identity of agent needs to be provided " ++
    "to ensure its proper communication with avatario backend"

/-- `AvatarioAPI.start_session`: resolve
`avatar_id or os.getenv("AVATARIO_REPLICA_ID")` and require it truthy; require
`livekit_agent_identity` truthy; build the payload
`{avatario_face_id, agent_id, livekit}` with `properties or {}`; merge
`extra_payload` on top when given; delegate to `_post`. Returns the event trace
together with the outcome of the call. -/
def start_session (apiKey : String) (opts : APIConnectOptions) (env : Env)
    (avatarId : Option String) (agentIdentity : Option String)
    (properties : Option (List (String × JLeaf))) (extraPayload : Option Payload)
    (transport : Nat → AttemptOutcome) : List Event × Except ApiError Unit :=
  let resolvedAvatar := strOr avatarId env.avatarioReplicaId
  if ¬ optTruthy resolvedAvatar then
    ([], .error (.avatarioException avatarIdMsg))
  else if ¬ optTruthy agentIdentity then
    ([], .error (.avatarioException identityMsg))
  else
    let a := resolvedAvatar.getD ""
    let g := agentIdentity.getD ""
    let props := match properties with
      | none => []
      | some p => p
    let payload : Payload :=
      [("avatario_face_id", .jstr a), ("agent_id", .jstr g), ("livekit", .jdict props)]
    let payload := match extraPayload with
      | none => payload
      | some extra => dictUpdate payload extra
    avatarioPost apiKey opts payload transport

/-- An attempt outcome that `_post` turns into a retryable exception before the
JSON parse is even reached: a transport exception, or a response that is not ok
in the aiohttp sense (`status ≥ 400`, yielding `APIStatusError`). -/
def isFailOutcome : AttemptOutcome → Bool
  | .raised _ => true
  | .response status _ _ => 400 ≤ status

/-- The exception such a failing outcome produces inside the `try` body. -/
def failError : AttemptOutcome → ApiError
  | .raised e => e
  | .response status bodyText _ => .apiStatusError "Server returned an error" status bodyText

/-- The request body exactly as the specification words it:
`{avatar_face_id: avatarId, agent_id: agentIdentity, caller_properties:
properties_or_empty}`. Stated from the specification text, to be compared with
the body the code builds. -/
def specRequestBody (avatarId agentIdentity : String)
    (properties : List (String × JLeaf)) : Payload :=
  [("avatar_face_id", .jstr avatarId), ("agent_id", .jstr agentIdentity),
   ("caller_properties", .jdict properties)]

/-- Connection options with the given retry count and the library default
`retry_interval = 2.0`, `timeout = 10.0`. -/
def testOpts (maxRetry : Int) : APIConnectOptions :=
  { maxRetry := maxRetry, retryInterval := 2, timeout := 10 }

/-- An environment with both `AVATARIO_API_KEY` and `AVATARIO_REPLICA_ID` unset. -/
def envNone : Env := ⟨none, none⟩

/-- A transport whose every attempt returns HTTP 200 with a JSON body. -/
def trOk : Nat → AttemptOutcome := fun _ => .response 200 "{}" true

/-- A transport whose every attempt returns HTTP 300 (non-2xx, but ok for
aiohttp) with a JSON body. -/
def tr300 : Nat → AttemptOutcome := fun _ => .response 300 "{}" true

/-- A transport whose every attempt returns HTTP 500. -/
def tr500 : Nat → AttemptOutcome := fun _ => .response 500 "oops" false

/-! ### Helper lemmas about the dict operations and the retry loop -/

theorem dictGet_dictSet_self (d : Payload) (k : String) (v : JValue) :
    dictGet (dictSet d k v) k = some v := by
  induction d with
  | nil => simp [dictSet, dictGet, List.find?]
  | cons hd tl ih =>
      obtain ⟨a, b⟩ := hd
      by_cases h : a = k
      · simp [dictSet, h, dictGet, List.find?]
      · simp [dictSet, h, dictGet, List.find?]
        simpa [dictGet] using ih

theorem dictGet_dictSet_of_ne (d : Payload) (a : String) (v : JValue) (k : String)
    (h : a ≠ k) : dictGet (dictSet d a v) k = dictGet d k := by
  induction d with
  | nil => simp [dictSet, dictGet, List.find?, h]
  | cons hd tl ih =>
      obtain ⟨a1, b1⟩ := hd
      by_cases h1 : a1 = a
      · simp [dictSet, h1, dictGet, List.find?, h]
      · by_cases h2 : a1 = k
        · subst h2
          simp [dictSet, h1, dictGet, List.find?]
        · simp [dictSet, h1, dictGet, List.find?, h2]
          simpa [dictGet] using ih

theorem dictGet_dictUpdate_not_mem (d : Payload) (extra : Payload) (k : String)
    (h : k ∉ extra.map Prod.fst) : dictGet (dictUpdate d extra) k = dictGet d k := by
  induction extra generalizing d with
  | nil => simp [dictUpdate]
  | cons hd tl ih =>
      obtain ⟨a, v⟩ := hd
      simp only [List.map_cons, List.mem_cons, not_or] at h
      have step : dictUpdate d ((a, v) :: tl) = dictUpdate (dictSet d a v) tl := rfl
      rw [step, ih (dictSet d a v) h.2, dictGet_dictSet_of_ne d a v k (fun he => h.1 he.symm)]

theorem dictGet_dictUpdate_of_mem (base extra : Payload) (k : String) (v : JValue)
    (hnd : (extra.map Prod.fst).Nodup) (hget : dictGet extra k = some v) :
    dictGet (dictUpdate base extra) k = some v := by
  induction extra generalizing base with
  | nil => simp [dictGet, List.find?] at hget
  | cons hd tl ih =>
      obtain ⟨a, w⟩ := hd
      simp only [List.map_cons, List.nodup_cons] at hnd
      have step : dictUpdate base ((a, w) :: tl) = dictUpdate (dictSet base a w) tl := rfl
      by_cases h : a = k
      · subst h
        have hv : w = v := by
          simpa [dictGet, List.find?] using hget
        subst hv
        have hnm : a ∉ tl.map Prod.fst := hnd.1
        rw [step, dictGet_dictUpdate_not_mem (dictSet base a w) tl a hnm,
          dictGet_dictSet_self]
      · have hget1 : dictGet tl k = some v := by
          simpa [dictGet, List.find?, h] using hget
        rw [step]
        exact ih (dictSet base a w) hnd.2 hget1

theorem mem_loopTrace {e : Event} {n : Nat} {f : Nat → List Event}
    (hm : e ∈ loopTrace n f) : ∃ i, i < n ∧ e ∈ f i := by
  induction n with
  | zero => simp [loopTrace] at hm
  | succ m ih =>
      simp only [loopTrace, List.mem_append] at hm
      rcases hm with hm | hm
      · obtain ⟨i, hi, hmem⟩ := ih hm
        exact ⟨i, Nat.lt_succ_of_lt hi, hmem⟩
      · exact ⟨m, Nat.lt_succ_self m, hm⟩

theorem loopTrace_congr {n : Nat} {f g : Nat → List Event}
    (h : ∀ i, i < n → f i = g i) : loopTrace n f = loopTrace n g := by
  induction n with
  | zero => rfl
  | succ m ih =>
      simp only [loopTrace]
      rw [ih (fun i hi => h i (Nat.lt_succ_of_lt hi)), h m (Nat.lt_succ_self m)]

theorem loopTrace_countP_eq (p : Event → Bool) (n : Nat) (f : Nat → List Event)
    (c : Nat → Nat) (h : ∀ i, i < n → (f i).countP p = c i) :
    (loopTrace n f).countP p = ((List.range n).map c).sum := by
  induction n with
  | zero => rfl
  | succ m ih =>
      rw [loopTrace, List.countP_append, List.range_succ, List.map_append,
        List.sum_append, ih (fun i hi => h i (Nat.lt_succ_of_lt hi))]
      simp [h m (Nat.lt_succ_self m)]

theorem list_countP_eq_sum_map {α : Type} (l : List α) (q : α → Bool) :
    l.countP q = (l.map (fun a => if q a then (1 : Nat) else 0)).sum := by
  induction l with
  | nil => rfl
  | cons hd tl ih =>
      by_cases hq : q hd
      · simp [List.countP_cons, hq, ih]
        omega
      · simp [List.countP_cons, hq, ih]

theorem mem_iterationEvents {e : Event} {key : String} {opts : APIConnectOptions}
    {payload : Payload} {transport : Nat → AttemptOutcome} {i : Nat}
    (hm : e ∈ iterationEvents key opts payload transport i) :
    e = requestEvent key opts payload ∨ isRequestEvent e = false := by
  simp only [iterationEvents] at hm
  rcases List.mem_cons.mp hm with h | h
  · exact Or.inl h
  · right
    rcases hx : attemptException (transport i) with _ | err
    · rw [hx] at h
      simp at h
    · rw [hx] at h
      rcases List.mem_cons.mp h with h | h
      · subst h
        unfold logEventOf
        rcases hc : isAPIConnectionError err <;> simp [hc, isRequestEvent]
      · by_cases hs : (i : Int) < opts.maxRetry - 1
        · rw [if_pos hs] at h
          have he := List.mem_singleton.mp h
          subst he
          rfl
        · rw [if_neg hs] at h
          simp at h

theorem request_mem_post {key : String} {opts : APIConnectOptions}
    {payload : Payload} {transport : Nat → AttemptOutcome}
    {u : String} {h : List (String × String)} {b : Payload} {t : Rat}
    (hmem : Event.request u h b t ∈ (avatarioPost key opts payload transport).1) :
    u = DEFAULT_API_URL ++ "/start_session" ∧ h = stdHeaders key ∧ b = payload ∧
      t = opts.timeout := by
  obtain ⟨i, _, hev⟩ := mem_loopTrace hmem
  rcases mem_iterationEvents hev with heq | hfalse
  · rw [requestEvent] at heq
    exact ⟨(Event.request.injEq _ _ _ _ _ _ _ _).mp heq |>.1,
      ((Event.request.injEq _ _ _ _ _ _ _ _).mp heq).2.1,
      ((Event.request.injEq _ _ _ _ _ _ _ _).mp heq).2.2.1,
      ((Event.request.injEq _ _ _ _ _ _ _ _).mp heq).2.2.2⟩
  · simp [isRequestEvent] at hfalse

theorem isRequestEvent_logEventOf (e : ApiError) :
    isRequestEvent (logEventOf e) = false := by
  unfold logEventOf
  split <;> rfl

theorem isSleepEvent_logEventOf (e : ApiError) :
    isSleepEvent (logEventOf e) = false := by
  unfold logEventOf
  split <;> rfl

theorem isLogEvent_logEventOf (e : ApiError) :
    isLogEvent (logEventOf e) = true := by
  unfold logEventOf
  split <;> rfl

theorem isRequestEvent_requestEvent (key : String) (opts : APIConnectOptions)
    (payload : Payload) : isRequestEvent (requestEvent key opts payload) = true := rfl

theorem isRequestEvent_sleepEvent (s : Rat) :
    isRequestEvent (Event.sleep s) = false := rfl

theorem isSleepEvent_requestEvent (key : String) (opts : APIConnectOptions)
    (payload : Payload) : isSleepEvent (requestEvent key opts payload) = false := rfl

theorem isSleepEvent_sleepEvent (s : Rat) :
    isSleepEvent (Event.sleep s) = true := rfl

theorem attemptException_of_fail (o : AttemptOutcome) (h : isFailOutcome o = true) :
    attemptException o = some (failError o) := by
  cases o with
  | raised e => rfl
  | response status bodyText jsonOk =>
      simp only [isFailOutcome, decide_eq_true_eq] at h
      simp only [attemptException, failError, if_pos (by omega : ¬ status < 400)]

theorem list_sum_map_one (l : List Nat) : (l.map fun _ => (1 : Nat)).sum = l.length := by
  induction l with
  | nil => rfl
  | cons hd tl ih =>
      simp [ih]
      omega

theorem range_sum_indicator (m n : Nat) :
    ((List.range m).map (fun i => if i + 1 < n then (1 : Nat) else 0)).sum =
      min m (n - 1) := by
  induction m with
  | zero => simp
  | succ k ih =>
      rw [List.range_succ, List.map_append, List.sum_append]
      simp only [List.map_cons, List.map_nil, List.sum_cons, List.sum_nil, ih]
      by_cases hk : k + 1 < n
      · rw [if_pos hk]
        omega
      · rw [if_neg hk]
        omega

theorem iterationEvents_countP_log (key : String) (opts : APIConnectOptions)
    (payload : Payload) (transport : Nat → AttemptOutcome) (i : Nat) :
    (iterationEvents key opts payload transport i).countP isLogEvent =
      if (attemptException (transport i)).isSome then 1 else 0 := by
  rcases hx : attemptException (transport i) with _ | err
  · simp [iterationEvents, hx, requestEvent, isLogEvent]
  · simp only [iterationEvents, hx, Option.isSome_some, if_true]
    by_cases hs : (i : Int) < opts.maxRetry - 1
    · rw [if_pos hs]
      unfold logEventOf
      by_cases hc : isAPIConnectionError err <;>
        simp [hc, requestEvent, isLogEvent, List.countP_cons]
    · rw [if_neg hs]
      unfold logEventOf
      by_cases hc : isAPIConnectionError err <;>
        simp [hc, requestEvent, isLogEvent, List.countP_cons]

/-! ### Claim theorems -/

/-- C1: the specification says that on a 2xx response `_post` parses the body
as JSON, returns normally, and makes no further attempts. The code disagrees:
the `try` body has no `return`, so after a successful attempt the loop simply
continues, and after the loop the function unconditionally raises
`APIConnectionError`. Concretely, with `max_retry = 3` and a transport whose
every attempt answers HTTP 200 with a JSON body (in particular the first
attempt), the code makes all three attempts and the call fails. -/
theorem post_success_still_raises :
    avatarioPost "k" (testOpts 3) [] trOk =
      ([requestEvent "k" (testOpts 3) [], requestEvent "k" (testOpts 3) [],
        requestEvent "k" (testOpts 3) []],
       .error (.apiConnectionError "Failed to call Avatario API after all retries")) :=
  rfl

/-- C5 counterexample: the claim says construction fails whenever the resolved
key is absent or empty, but when the argument is not given and
`AVATARIO_API_KEY` is set to the empty string, the resolved key is `""` (not
`None`) and construction succeeds. -/
theorem init_accepts_empty_env_key :
    avatarioInit none ⟨some "", none⟩ = .ok "" ∧
      avatarioInit none ⟨some "", none⟩ ≠
        .error (.avatarioException "AVATARIO_API_KEY must be set") :=
  ⟨rfl, fun hc => Except.noConfusion hc⟩

/-- C5 amended: construction fails with the configuration error exactly when
the key resolved by argument-or-environment is `None`, i.e. when the argument
is absent or empty and the environment variable is unset; in particular it
always fails when both are unset. An environment value that is the empty
string is accepted. -/
theorem init_fails_iff_resolved_none (arg : Option String) (env : Env) :
    avatarioInit arg env =
        .error (.avatarioException "AVATARIO_API_KEY must be set") ↔
      ((arg = none ∨ arg = some "") ∧ env.avatarioApiKey = none) := by
  obtain ⟨ek, er⟩ := env
  rcases arg with _ | s
  · rcases ek with _ | v
    · simp [avatarioInit, strOr]
    · simp [avatarioInit, strOr]
  · by_cases hs : s = ""
    · subst hs
      rcases ek with _ | v
      · simp [avatarioInit, strOr]
      · simp [avatarioInit, strOr]
    · simp [avatarioInit, strOr, hs]

/-- C6: when the avatar id argument is empty or absent and the
`AVATARIO_REPLICA_ID` fallback is empty or unset, `start_session` fails with
the validation error and issues no network request (empty trace). -/
theorem start_session_empty_avatar_fails (key : String) (opts : APIConnectOptions)
    (env : Env) (avatarId agentIdentity : Option String)
    (properties : Option (List (String × JLeaf))) (extraPayload : Option Payload)
    (transport : Nat → AttemptOutcome)
    (ha : avatarId = none ∨ avatarId = some "")
    (he : env.avatarioReplicaId = none ∨ env.avatarioReplicaId = some "") :
    start_session key opts env avatarId agentIdentity properties extraPayload transport =
      ([], .error (.avatarioException avatarIdMsg)) := by
  have hres : strOr avatarId env.avatarioReplicaId = none ∨
      strOr avatarId env.avatarioReplicaId = some "" := by
    rcases ha with ha | ha <;> rcases he with he | he <;> simp [strOr, ha, he]
  rcases hres with hres | hres <;> simp [start_session, hres, optTruthy]

theorem start_session_empty_avatar_fails_witness :
    start_session "k" (testOpts 3) envNone none none none none trOk =
      ([], .error (.avatarioException avatarIdMsg)) :=
  start_session_empty_avatar_fails "k" (testOpts 3) envNone none none none none trOk
    (Or.inl rfl) (Or.inl rfl)

/-- C7 counterexample: the claim says every call with an empty or absent agent
identity fails with a message about identity correlation with the backend. But
the avatar id is validated first: when the avatar id is also unresolvable, the
error raised is `avatar_id must be set`, which is not the identity message. -/
theorem empty_identity_error_is_avatar_message :
    start_session "k" (testOpts 3) envNone none none none none tr500 =
        ([], .error (.avatarioException avatarIdMsg)) ∧
      avatarIdMsg ≠ identityMsg :=
  ⟨rfl, by decide⟩

/-- C7 amended: when the agent identity is empty or absent and the avatar id
resolves to a non-empty string, `start_session` fails before any network
request with the validation error whose message states that the identity of
the agent is needed for proper communication with the avatario backend. (When
the avatar id also fails to resolve, the avatar-id validation error is raised
instead.) -/
theorem empty_identity_fails_with_identity_message (key : String)
    (opts : APIConnectOptions) (env : Env) (avatarId agentIdentity : Option String)
    (properties : Option (List (String × JLeaf))) (extraPayload : Option Payload)
    (transport : Nat → AttemptOutcome) (A : String)
    (hres : strOr avatarId env.avatarioReplicaId = some A) (hA : A ≠ "")
    (hg : agentIdentity = none ∨ agentIdentity = some "") :
    start_session key opts env avatarId agentIdentity properties extraPayload transport =
      ([], .error (.avatarioException identityMsg)) := by
  rcases hg with hg | hg <;> simp [start_session, hres, optTruthy, hA, hg]

theorem empty_identity_fails_with_identity_message_witness :
    start_session "k" (testOpts 3) envNone (some "face1") none none none tr500 =
      ([], .error (.avatarioException identityMsg)) :=
  empty_identity_fails_with_identity_message "k" (testOpts 3) envNone (some "face1")
    none none none tr500 "face1" rfl (by decide) (Or.inl rfl)

/-- C9: every attempt of every `_post` run sends its request with exactly the
headers `Content-Type: application/json` and `x-api-key` equal to the
credential resolved at construction, regardless of the attempt number. -/
theorem post_request_headers_invariant (key : String) (opts : APIConnectOptions)
    (payload : Payload) (transport : Nat → AttemptOutcome)
    (u : String) (h : List (String × String)) (b : Payload) (t : Rat)
    (hmem : Event.request u h b t ∈ (avatarioPost key opts payload transport).1) :
    h = stdHeaders key :=
  (request_mem_post hmem).2.1

theorem post_request_headers_invariant_witness :
    ([("Content-Type", "application/json"), ("x-api-key", "secret")] :
        List (String × String)) = stdHeaders "secret" :=
  post_request_headers_invariant "secret" (testOpts 1) [] trOk "/start_session"
    [("Content-Type", "application/json"), ("x-api-key", "secret")] [] 10 (by decide)

/-- C10: for a non-positive configured `max_retry`, `range(max_retry)` is
empty, so `_post` makes zero attempts (empty trace) and raises the
retries-exhausted connection error unconditionally, for every payload and
every transport. -/
theorem post_nonpositive_retry_no_attempts (key : String) (opts : APIConnectOptions)
    (payload : Payload) (transport : Nat → AttemptOutcome) (h : opts.maxRetry ≤ 0) :
    avatarioPost key opts payload transport =
      ([], .error (.apiConnectionError "Failed to call Avatario API after all retries")) := by
  have h0 : opts.maxRetry.toNat = 0 := by omega
  unfold avatarioPost
  rw [h0]
  rfl

theorem post_nonpositive_retry_no_attempts_witness :
    avatarioPost "k" (testOpts 0) [] tr500 =
      ([], .error (.apiConnectionError "Failed to call Avatario API after all retries")) :=
  post_nonpositive_retry_no_attempts "k" (testOpts 0) [] tr500 (by decide)

/-- C2 counterexample: the specification names the body keys `avatar_face_id`
and `caller_properties`, but the code builds `avatario_face_id` and `livekit`.
At a concrete call, the request body sent on the wire differs from
`specRequestBody` and has neither key named by the specification. -/
theorem start_session_body_differs_from_spec :
    (start_session "k" (testOpts 1) envNone (some "a") (some "g") none none trOk).1 =
        [Event.request "/start_session" (stdHeaders "k")
          [("avatario_face_id", .jstr "a"), ("agent_id", .jstr "g"),
           ("livekit", .jdict [])] 10] ∧
      ([("avatario_face_id", JValue.jstr "a"), ("agent_id", JValue.jstr "g"),
        ("livekit", JValue.jdict [])] : Payload) ≠ specRequestBody "a" "g" [] ∧
      dictGet [("avatario_face_id", JValue.jstr "a"), ("agent_id", JValue.jstr "g"),
        ("livekit", JValue.jdict [])] "avatar_face_id" = none ∧
      dictGet [("avatario_face_id", JValue.jstr "a"), ("agent_id", JValue.jstr "g"),
        ("livekit", JValue.jdict [])] "caller_properties" = none :=
  ⟨rfl, by decide, rfl, rfl⟩

/-- C2 amended: for every call with resolved non-empty avatar id `A`, non-empty
agent identity `G`, properties `P` (empty when absent) and no extra payload,
the body of every request issued is exactly
`{avatario_face_id: A, agent_id: G, livekit: P}` (these are the key names the
code uses; the specification calls them `avatar_face_id` and
`caller_properties`). -/
theorem start_session_base_payload_keys (key : String) (opts : APIConnectOptions)
    (env : Env) (avatarId agentIdentity : Option String) (A G : String)
    (properties : Option (List (String × JLeaf))) (transport : Nat → AttemptOutcome)
    (hres : strOr avatarId env.avatarioReplicaId = some A) (hA : A ≠ "")
    (hG : agentIdentity = some G) (hGne : G ≠ "")
    (u : String) (h : List (String × String)) (b : Payload) (t : Rat)
    (hmem : Event.request u h b t ∈
      (start_session key opts env avatarId agentIdentity properties none transport).1) :
    b = [("avatario_face_id", .jstr A), ("agent_id", .jstr G),
      ("livekit", .jdict (properties.getD []))] := by
  subst hG
  rcases properties with _ | p <;>
  · simp [start_session, hres, optTruthy, hA, hGne] at hmem
    simpa using (request_mem_post hmem).2.2.1

theorem start_session_base_payload_keys_witness :
    ([("avatario_face_id", JValue.jstr "a"), ("agent_id", JValue.jstr "g"),
      ("livekit", JValue.jdict [("room", JLeaf.lstr "r1")])] : Payload) =
      [("avatario_face_id", JValue.jstr "a"), ("agent_id", JValue.jstr "g"),
       ("livekit", JValue.jdict ((some [("room", JLeaf.lstr "r1")]).getD []))] :=
  start_session_base_payload_keys "k" (testOpts 1) envNone (some "a") (some "g")
    "a" "g" (some [("room", JLeaf.lstr "r1")]) trOk rfl (by decide) rfl (by decide)
    "/start_session" (stdHeaders "k")
    [("avatario_face_id", JValue.jstr "a"), ("agent_id", JValue.jstr "g"),
     ("livekit", JValue.jdict [("room", JLeaf.lstr "r1")])] 10 (by decide)

/-- C4 counterexample: merging `extra_payload = {audio_sample_rate: 16000}`
does put `audio_sample_rate: 16000` into the request body, but the body
carries it alongside `avatario_face_id`, `agent_id` and `livekit`; it contains
neither an `avatar_face_id` nor a `caller_properties` key, contrary to the
claim as stated. -/
theorem merged_body_lacks_spec_keys :
    (start_session "k" (testOpts 1) envNone (some "a") (some "g") none
        (some [("audio_sample_rate", .jnum 16000)]) trOk).1 =
        [Event.request "/start_session" (stdHeaders "k")
          [("avatario_face_id", .jstr "a"), ("agent_id", .jstr "g"),
           ("livekit", .jdict []), ("audio_sample_rate", .jnum 16000)] 10] ∧
      dictGet [("avatario_face_id", JValue.jstr "a"), ("agent_id", JValue.jstr "g"),
        ("livekit", JValue.jdict []), ("audio_sample_rate", JValue.jnum 16000)]
        "audio_sample_rate" = some (JValue.jnum 16000) ∧
      dictGet [("avatario_face_id", JValue.jstr "a"), ("agent_id", JValue.jstr "g"),
        ("livekit", JValue.jdict []), ("audio_sample_rate", JValue.jnum 16000)]
        "avatar_face_id" = none ∧
      dictGet [("avatario_face_id", JValue.jstr "a"), ("agent_id", JValue.jstr "g"),
        ("livekit", JValue.jdict []), ("audio_sample_rate", JValue.jnum 16000)]
        "caller_properties" = none :=
  ⟨rfl, rfl, rfl, rfl⟩

/-- C4 amended: merging a present `extra_payload` puts every one of its keys
into the request body at top level, with the extra value winning on any key
collision; concretely, merging `{audio_sample_rate: 16000}` yields a body
containing `audio_sample_rate: 16000` alongside the `avatario_face_id`,
`agent_id` and `livekit` keys (which the specification calls `avatar_face_id`
and `caller_properties`), and that merged body is what a concrete
`start_session` call sends. -/
theorem merged_body_extra_wins :
    (∀ (base extra : Payload) (k : String) (v : JValue),
        (extra.map Prod.fst).Nodup → dictGet extra k = some v →
          dictGet (dictUpdate base extra) k = some v) ∧
      dictGet (dictUpdate
        [("avatario_face_id", JValue.jstr "a"), ("agent_id", JValue.jstr "g"),
         ("livekit", JValue.jdict [])]
        [("audio_sample_rate", JValue.jnum 16000)]) "audio_sample_rate" =
        some (JValue.jnum 16000) ∧
      dictGet (dictUpdate
        [("avatario_face_id", JValue.jstr "a"), ("agent_id", JValue.jstr "g"),
         ("livekit", JValue.jdict [])]
        [("audio_sample_rate", JValue.jnum 16000)]) "avatario_face_id" =
        some (JValue.jstr "a") ∧
      dictGet (dictUpdate
        [("avatario_face_id", JValue.jstr "a"), ("agent_id", JValue.jstr "g"),
         ("livekit", JValue.jdict [])]
        [("audio_sample_rate", JValue.jnum 16000)]) "agent_id" =
        some (JValue.jstr "g") ∧
      dictGet (dictUpdate
        [("avatario_face_id", JValue.jstr "a"), ("agent_id", JValue.jstr "g"),
         ("livekit", JValue.jdict [])]
        [("audio_sample_rate", JValue.jnum 16000)]) "livekit" =
        some (JValue.jdict []) ∧
      dictGet (dictUpdate [("agent_id", JValue.jstr "g")]
        [("agent_id", JValue.jstr "x")]) "agent_id" = some (JValue.jstr "x") ∧
      (start_session "k" (testOpts 1) envNone (some "a") (some "g") none
          (some [("audio_sample_rate", JValue.jnum 16000)]) trOk).1 =
        [Event.request "/start_session" (stdHeaders "k")
          (dictUpdate
            [("avatario_face_id", JValue.jstr "a"), ("agent_id", JValue.jstr "g"),
             ("livekit", JValue.jdict [])]
            [("audio_sample_rate", JValue.jnum 16000)]) 10] :=
  ⟨fun base extra k v hnd hget => dictGet_dictUpdate_of_mem base extra k v hnd hget,
    rfl, rfl, rfl, rfl, rfl, rfl⟩

theorem merged_body_extra_wins_witness :
    dictGet (dictUpdate [("a", JValue.jnum 1)]
        [("a", JValue.jnum 2), ("b", JValue.jnum 3)]) "a" = some (JValue.jnum 2) :=
  merged_body_extra_wins.1 [("a", JValue.jnum 1)]
    [("a", JValue.jnum 2), ("b", JValue.jnum 3)] "a" (JValue.jnum 2) (by decide) rfl

/-- C3 counterexample: under the claim, a transport answering HTTP 300 on every
attempt fails every attempt (300 is not in the 2xx range), so the configured
retry interval should separate consecutive attempts. But the code tests
`response.ok`, which in aiohttp means `status < 400`, so a 300 response raises
nothing: with `max_retry = 2` both attempts are made and no sleep occurs at
all. -/
theorem post_non2xx_ok_no_retry_wait :
    avatarioPost "k" (testOpts 2) [] tr300 =
        ([requestEvent "k" (testOpts 2) [], requestEvent "k" (testOpts 2) []],
         .error (.apiConnectionError "Failed to call Avatario API after all retries")) ∧
      ((avatarioPost "k" (testOpts 2) [] tr300).1.countP isRequestEvent) = 2 ∧
      ((avatarioPost "k" (testOpts 2) [] tr300).1.countP isSleepEvent) = 0 :=
  ⟨rfl, rfl, rfl⟩

/-- C3 amended: for every configured `max_retry` and a transport that fails
every attempt in the sense of the code (a transport exception or a non-ok
response, `status ≥ 400`), `_post` makes exactly `max_retry` attempts — each
one a request followed by a log of the caught failure — waits the fixed retry
interval between consecutive attempts but not after the last one, and finally
fails with the retries-exhausted connection error. The trace is pinned
exactly, and the attempt count is `max_retry` with `max_retry - 1` sleeps. -/
theorem post_all_attempts_fail_retry_pattern (key : String)
    (opts : APIConnectOptions) (payload : Payload)
    (transport : Nat → AttemptOutcome)
    (hfail : ∀ i, i < opts.maxRetry.toNat → isFailOutcome (transport i) = true) :
    avatarioPost key opts payload transport =
        (loopTrace opts.maxRetry.toNat (fun i =>
          requestEvent key opts payload :: logEventOf (failError (transport i)) ::
            (if i + 1 < opts.maxRetry.toNat then [Event.sleep opts.retryInterval]
             else [])),
         .error (.apiConnectionError "Failed to call Avatario API after all retries")) ∧
      ((avatarioPost key opts payload transport).1.countP isRequestEvent) =
        opts.maxRetry.toNat ∧
      ((avatarioPost key opts payload transport).1.countP isSleepEvent) =
        opts.maxRetry.toNat - 1 := by
  have hiter : ∀ i, i < opts.maxRetry.toNat →
      iterationEvents key opts payload transport i =
        requestEvent key opts payload :: logEventOf (failError (transport i)) ::
          (if i + 1 < opts.maxRetry.toNat then [Event.sleep opts.retryInterval]
           else []) := by
    intro i hi
    rw [iterationEvents, attemptException_of_fail _ (hfail i hi)]
    have hiff : ((i : Int) < opts.maxRetry - 1) ↔ (i + 1 < opts.maxRetry.toNat) := by
      omega
    simp only [hiff]
  have htrace : (avatarioPost key opts payload transport).1 =
      loopTrace opts.maxRetry.toNat (fun i =>
        requestEvent key opts payload :: logEventOf (failError (transport i)) ::
          (if i + 1 < opts.maxRetry.toNat then [Event.sleep opts.retryInterval]
           else [])) :=
    loopTrace_congr hiter
  refine ⟨?_, ?_, ?_⟩
  · unfold avatarioPost
    rw [loopTrace_congr hiter]
  · rw [htrace,
      loopTrace_countP_eq isRequestEvent opts.maxRetry.toNat _ (fun _ => 1)
        (by
          intro i hi
          by_cases hc : i + 1 < opts.maxRetry.toNat <;>
            simp [hc, List.countP_cons, isRequestEvent_requestEvent,
              isRequestEvent_logEventOf, isRequestEvent_sleepEvent]),
      list_sum_map_one, List.length_range]
  · rw [htrace,
      loopTrace_countP_eq isSleepEvent opts.maxRetry.toNat _
        (fun i => if i + 1 < opts.maxRetry.toNat then 1 else 0)
        (by
          intro i hi
          by_cases hc : i + 1 < opts.maxRetry.toNat <;>
            simp [hc, List.countP_cons, isSleepEvent_requestEvent,
              isSleepEvent_logEventOf, isSleepEvent_sleepEvent]),
      range_sum_indicator]
    omega

theorem post_all_attempts_fail_retry_pattern_witness :
    avatarioPost "k" (testOpts 2) [] tr500 =
        (loopTrace 2 (fun i =>
          requestEvent "k" (testOpts 2) [] :: logEventOf (failError (tr500 i)) ::
            (if i + 1 < 2 then [Event.sleep (testOpts 2).retryInterval] else [])),
         .error (.apiConnectionError "Failed to call Avatario API after all retries")) ∧
      ((avatarioPost "k" (testOpts 2) [] tr500).1.countP isRequestEvent) = 2 ∧
      ((avatarioPost "k" (testOpts 2) [] tr500).1.countP isSleepEvent) = 1 :=
  post_all_attempts_fail_retry_pattern "k" (testOpts 2) [] tr500 (fun _ _ => rfl)

/-- C8: every exception raised inside an attempt of the retry loop is caught by
the catch-all `except` and logged exactly once at the point of occurrence —
the number of log events equals the number of attempts whose `try` body raised
— and the only error the caller can ever observe from `_post` is the final
retries-exhausted `APIConnectionError`. -/
theorem post_failures_logged_only_exhaustion_raised (key : String)
    (opts : APIConnectOptions) (payload : Payload)
    (transport : Nat → AttemptOutcome) :
    (avatarioPost key opts payload transport).2 =
        .error (.apiConnectionError "Failed to call Avatario API after all retries") ∧
      ((avatarioPost key opts payload transport).1.countP isLogEvent) =
        (List.range opts.maxRetry.toNat).countP
          (fun i => (attemptException (transport i)).isSome) := by
  refine ⟨rfl, ?_⟩
  rw [show (avatarioPost key opts payload transport).1 =
      loopTrace opts.maxRetry.toNat (iterationEvents key opts payload transport)
      from rfl]
  rw [loopTrace_countP_eq isLogEvent opts.maxRetry.toNat _
      (fun i => if (attemptException (transport i)).isSome then 1 else 0)
      (fun i _ => iterationEvents_countP_log key opts payload transport i),
    list_countP_eq_sum_map]

end Avatario
